import Mathlib

/-!
Verification of the Infonavit amortization simulator
(`calcular_amortizacion_con_pagos_anuales` in `src/app.py`).

The engine is shallowly embedded over `ℚ`: Python floats become exact
rationals, the `while saldo_pendiente > 0` loop becomes a fuel-indexed
recursion, and the two failure modes (the `ZeroDivisionError` that Python
raises when the annuity denominator vanishes, and the loop never reaching
zero balance) become explicit constructors of `SimOutcome`.
-/

namespace Infonavit

/-- Calendar dates as plain year/month/day triples, mirroring
`datetime.datetime`. -/
structure Date where
  year : ℕ
  month : ℕ
  day : ℕ
  deriving Repr, DecidableEq

/-- Gregorian leap-year test, as used by `datetime`/`dateutil`. -/
def isLeap (y : ℕ) : Bool :=
  (y % 4 == 0 && y % 100 != 0) || (y % 400 == 0)

/-- Number of days of month `m` of year `y`. -/
def daysInMonth (y m : ℕ) : ℕ :=
  if m = 2 then (if isLeap y then 29 else 28)
  else if m = 4 ∨ m = 6 ∨ m = 9 ∨ m = 11 then 30
  else 31

/-- `current_date += relativedelta(months=1)`: advance one calendar month,
clamping the day to the length of the target month (dateutil semantics). -/
def addMonth (d : Date) : Date :=
  let y := if d.month = 12 then d.year + 1 else d.year
  let m := if d.month = 12 then 1 else d.month + 1
  { year := y, month := m, day := min d.day (daysInMonth y m) }

/-- `d` advanced by `n` calendar months. -/
def addMonths (d : Date) : ℕ → Date
  | 0 => d
  | n + 1 => addMonth (addMonths d n)

/-- The parameters of `calcular_amortizacion_con_pagos_anuales`.  A recurring
extra payment is a `(mes_pago, dia_pago, monto_pago)` triple. -/
structure Params where
  credito_total : ℚ
  tasa_interes_anual : ℚ
  plazo_anios : ℕ
  inicio_credito : Date
  pagos_recurrentes : List (ℕ × ℕ × ℚ)
  liquidar_al_25 : Bool
  tasa_seguros_anual : ℚ
  deriving Repr, DecidableEq

/-- One row of the returned amortization table (`amort_data.append({...})`).
The Python code stores the flag as the string `"Sí"`/`"No"`; we model it as
a `Bool`, and the date as a `Date` instead of its `strftime` rendering. -/
structure MonthRecord where
  mes : ℕ
  fecha : Date
  saldoInicial : ℚ
  interes : ℚ
  seguro : ℚ
  pagoMensual : ℚ
  abonoCapital : ℚ
  pagoExtra : ℚ
  saldoFinal : ℚ
  liqAplicada : Bool
  deriving Repr, DecidableEq

/-- The mutable locals of the simulation loop. -/
structure AmortState where
  saldo_pendiente : ℚ
  meses : ℕ
  liquidacion_aplicada : Bool
  fecha_liquidacion : Option Date
  saldo_para_liquidar : ℚ
  current_date : Date
  total_intereses_pagados : ℚ
  total_pagos_mensuales : ℚ
  total_pagos_extra : ℚ
  total_liquidacion : ℚ
  amort_data : List MonthRecord  -- newest record first; reversed on return
  deriving Repr, DecidableEq

/-- The `resumen` dictionary. -/
structure Resumen where
  duracion_total_meses : ℕ
  fecha_liquidacion : Option Date
  pago_mensual : ℚ
  credito_total : ℚ
  tasa_interes_anual : ℚ
  saldo_liquidacion : ℚ
  total_intereses_pagados : ℚ
  total_pagado : ℚ
  deriving Repr, DecidableEq

/-- Result of a simulation run.  `divisionByZero` models the
`ZeroDivisionError` Python raises while computing the annuity payment;
`fuelExhausted` means the `while` loop had not reached zero balance after
`fuel` iterations (the real code would still be looping). -/
inductive SimOutcome where
  | ok (records : List MonthRecord) (resumen : Resumen) : SimOutcome
  | divisionByZero : SimOutcome
  | fuelExhausted : SimOutcome
  deriving Repr, DecidableEq

/-- Table component of an `ok` outcome (junk `[]` otherwise). -/
def SimOutcome.records : SimOutcome → List MonthRecord
  | .ok rs _ => rs
  | _ => []

/-- Summary component of an `ok` outcome (junk zero summary otherwise). -/
def SimOutcome.resumen : SimOutcome → Resumen
  | .ok _ r => r
  | _ => ⟨0, none, 0, 0, 0, 0, 0, 0⟩

/-- Round half to even at integer precision (the tie behaviour of Python's
`round`). -/
def roundHalfToEven (q : ℚ) : ℤ :=
  let n := ⌊q⌋
  let f := q - n
  if f < 1/2 then n
  else if 1/2 < f then n + 1
  else if Even n then n else n + 1

/-- `round(q, 2)`. -/
def round2 (q : ℚ) : ℚ :=
  (roundHalfToEven (q * 100) : ℚ) / 100

/-- `tasa_interes_mensual = tasa_interes_anual / 12`. -/
def tasaMensual (p : Params) : ℚ :=
  p.tasa_interes_anual / 12

/-- `pago_mensual_sin_seguros`, the fixed-payment annuity formula
`(r_m * C) / (1 - (1 + r_m) ** -(plazo * 12))` computed once, before the
loop, from the original principal. -/
def pagoMensualSinSeguros (p : Params) : ℚ :=
  (tasaMensual p * p.credito_total) /
    (1 - ((1 + tasaMensual p) ^ (p.plazo_anios * 12))⁻¹)

/-- `costo_seguros_mensual_inicial = (credito_total * tasa_seguros_anual) / 12`,
also computed once from the original principal. -/
def costoSegurosInicial (p : Params) : ℚ :=
  (p.credito_total * p.tasa_seguros_anual) / 12

/-- `pago_mensual_aproximado`, the scheduled payment used for the whole run. -/
def pagoMensualAproximado (p : Params) : ℚ :=
  pagoMensualSinSeguros p + costoSegurosInicial p

/-- The parameter combinations on which Python raises `ZeroDivisionError`
while evaluating `pago_mensual_sin_seguros`: a zero annuity denominator, or a
zero base raised to the negative power `-(plazo * 12)`. -/
def degenerate (p : Params) : Prop :=
  (1 + tasaMensual p = 0 ∧ 0 < p.plazo_anios * 12) ∨
    1 - ((1 + tasaMensual p) ^ (p.plazo_anios * 12))⁻¹ = 0

instance (p : Params) : Decidable (degenerate p) := by
  unfold degenerate; exact inferInstance

/-- Net amount of the `for pago_ext in pagos_recurrentes` loop: the sum of
the `monto_pago` of every entry whose `(mes_pago, dia_pago)` matches the
current date. -/
def extrasTotal (pagos : List (ℕ × ℕ × ℚ)) (d : Date) : ℚ :=
  ((pagos.filter fun pe => d.month == pe.1 && d.day == pe.2.1).map
    fun pe => pe.2.2).sum

/-- `if saldo_pendiente < 0: saldo_pendiente = 0`. -/
def clampZero (q : ℚ) : ℚ :=
  if q < 0 then 0 else q

/-- `abono_capital = pago - interes_mes - costo_seguros_mensual`, floored at
zero (`if abono_capital < 0: abono_capital = 0`), as a function of the
month's beginning balance. -/
def abonoCapitalDe (p : Params) (pago saldo : ℚ) : ℚ :=
  if pago - saldo * tasaMensual p - saldo * p.tasa_seguros_anual / 12 < 0 then 0
  else pago - saldo * tasaMensual p - saldo * p.tasa_seguros_anual / 12

/-- One iteration of the `while saldo_pendiente > 0` loop.  Returns the
state after the iteration together with the `break` decision
(`liq_aplicada_este_mes`). -/
def loopBody (p : Params) (pago : ℚ) (s : AmortState) : AmortState × Bool :=
  let meses := s.meses + 1
  let fecha := addMonth s.current_date
  let saldo_inicial := s.saldo_pendiente
  let interes_mes := saldo_inicial * tasaMensual p
  let costo_seguros_mensual := saldo_inicial * p.tasa_seguros_anual / 12
  let abono_capital := abonoCapitalDe p pago saldo_inicial
  let pago_extra_total := extrasTotal p.pagos_recurrentes fecha
  let saldo2 := saldo_inicial - abono_capital - pago_extra_total
  if p.liquidar_al_25 = true ∧ s.liquidacion_aplicada = false ∧
      saldo2 ≤ p.credito_total * 0.25 ∧ 0 < saldo2 then
    -- early-payoff branch: disburse half the balance, record, then the
    -- caller forces the balance to zero and breaks
    let monto := saldo2 / 2
    let saldo4 := clampZero (saldo2 - monto)
    let r : MonthRecord :=
      { mes := meses, fecha := fecha, saldoInicial := saldo_inicial,
        interes := interes_mes, seguro := costo_seguros_mensual,
        pagoMensual := pago, abonoCapital := abono_capital,
        pagoExtra := pago_extra_total, saldoFinal := saldo4,
        liqAplicada := true }
    ({ saldo_pendiente := 0, meses := meses, liquidacion_aplicada := true,
       fecha_liquidacion := some fecha, saldo_para_liquidar := monto,
       current_date := fecha,
       total_intereses_pagados := s.total_intereses_pagados + interes_mes,
       total_pagos_mensuales := s.total_pagos_mensuales + pago,
       total_pagos_extra := s.total_pagos_extra + pago_extra_total,
       total_liquidacion := s.total_liquidacion + monto,
       amort_data := r :: s.amort_data }, true)
  else
    let saldo4 := clampZero saldo2
    let r : MonthRecord :=
      { mes := meses, fecha := fecha, saldoInicial := saldo_inicial,
        interes := interes_mes, seguro := costo_seguros_mensual,
        pagoMensual := pago, abonoCapital := abono_capital,
        pagoExtra := pago_extra_total, saldoFinal := saldo4,
        liqAplicada := false }
    ({ saldo_pendiente := saldo4, meses := meses,
       liquidacion_aplicada := s.liquidacion_aplicada,
       fecha_liquidacion := s.fecha_liquidacion,
       saldo_para_liquidar := s.saldo_para_liquidar,
       current_date := fecha,
       total_intereses_pagados := s.total_intereses_pagados + interes_mes,
       total_pagos_mensuales := s.total_pagos_mensuales + pago,
       total_pagos_extra := s.total_pagos_extra + pago_extra_total,
       total_liquidacion := s.total_liquidacion,
       amort_data := r :: s.amort_data }, false)

/-- The `while saldo_pendiente > 0` loop, indexed by fuel.  `none` means the
fuel ran out with the balance still positive (the Python loop would still be
running). -/
def runLoop (p : Params) (pago : ℚ) : ℕ → AmortState → Option AmortState
  | 0, s => if 0 < s.saldo_pendiente then none else some s
  | fuel + 1, s =>
    if 0 < s.saldo_pendiente then
      let sb := loopBody p pago s
      if sb.2 then some sb.1 else runLoop p pago fuel sb.1
    else some s

/-- The loop locals immediately before the first iteration. -/
def initState (p : Params) : AmortState :=
  { saldo_pendiente := p.credito_total, meses := 0,
    liquidacion_aplicada := false, fecha_liquidacion := none,
    saldo_para_liquidar := 0, current_date := p.inicio_credito,
    total_intereses_pagados := 0, total_pagos_mensuales := 0,
    total_pagos_extra := 0, total_liquidacion := 0, amort_data := [] }

/-- The `resumen` dictionary built after the loop. -/
def mkResumen (p : Params) (s : AmortState) : Resumen :=
  { duracion_total_meses := s.meses,
    fecha_liquidacion := s.fecha_liquidacion,
    pago_mensual := round2 (pagoMensualAproximado p),
    credito_total := p.credito_total,
    tasa_interes_anual := p.tasa_interes_anual,
    saldo_liquidacion := round2 s.saldo_para_liquidar,
    total_intereses_pagados := round2 s.total_intereses_pagados,
    total_pagado := round2 (s.total_pagos_mensuales + s.total_pagos_extra +
      s.total_liquidacion) }

/-- The whole of `calcular_amortizacion_con_pagos_anuales`. -/
def simulate (p : Params) (fuel : ℕ) : SimOutcome :=
  if degenerate p then .divisionByZero
  else
    match runLoop p (pagoMensualAproximado p) fuel (initState p) with
    | none => .fuelExhausted
    | some s => .ok s.amort_data.reverse (mkResumen p s)

end Infonavit

namespace Infonavit

/-! ### Derived quantities of the output table -/

/-- Sum over the table of principal portion plus extra payment. -/
def sumAbonoExtra (l : List MonthRecord) : ℚ :=
  (l.map fun r => r.abonoCapital + r.pagoExtra).sum

/-- Amount disbursed by the early-payoff event, read off the table: the sum
of the ending balances of the flagged rows (the code records the flagged
month's ending balance equal to the disbursed amount). -/
def payoffTotal (l : List MonthRecord) : ℚ :=
  ((l.filter fun r => r.liqAplicada).map fun r => r.saldoFinal).sum

/-- `[n, n-1, ..., 1]`. -/
def descList : ℕ → List ℕ
  | 0 => []
  | n + 1 => (n + 1) :: descList n

/-- The newest-first record list is contiguous and starts (at its oldest
end) from the balance `c`. -/
def ChainedFrom (c : ℚ) : List MonthRecord → Prop
  | [] => True
  | [r] => r.saldoInicial = c
  | r :: r' :: tl => r.saldoInicial = r'.saldoFinal ∧ ChainedFrom c (r' :: tl)

/-- The per-row equations every emitted record satisfies, straight from the
loop body. -/
structure RecordEqns (p : Params) (pago : ℚ) (r : MonthRecord) : Prop where
  pagoM : r.pagoMensual = pago
  interes_eq : r.interes = r.saldoInicial * tasaMensual p
  seguro_eq : r.seguro = r.saldoInicial * p.tasa_seguros_anual / 12
  abono_eq : r.abonoCapital = abonoCapitalDe p pago r.saldoInicial
  extra_eq : r.pagoExtra = extrasTotal p.pagos_recurrentes r.fecha
  final_nonneg : 0 ≤ r.saldoFinal
  final_noliq : r.liqAplicada = false →
    r.saldoFinal = clampZero (r.saldoInicial - r.abonoCapital - r.pagoExtra)
  final_liq : r.liqAplicada = true →
    p.liquidar_al_25 = true ∧
    0 < r.saldoInicial - r.abonoCapital - r.pagoExtra ∧
    r.saldoInicial - r.abonoCapital - r.pagoExtra ≤ p.credito_total * 0.25 ∧
    r.saldoFinal = (r.saldoInicial - r.abonoCapital - r.pagoExtra) / 2
  no_trigger : r.liqAplicada = false → p.liquidar_al_25 = true →
    ¬(r.saldoInicial - r.abonoCapital - r.pagoExtra ≤ p.credito_total * 0.25 ∧
      0 < r.saldoInicial - r.abonoCapital - r.pagoExtra)

/-- The loop invariant: everything the emitted rows and accumulators satisfy
at the top of every iteration and when the loop stops. -/
structure Inv (p : Params) (pago : ℚ) (s : AmortState) : Prop where
  recs : ∀ r ∈ s.amort_data, RecordEqns p pago r
  chain : ChainedFrom p.credito_total s.amort_data
  nonneg : s.amort_data ≠ [] → 0 ≤ s.saldo_pendiente
  empty_saldo : s.amort_data = [] → s.saldo_pendiente = p.credito_total
  head_match : s.liquidacion_aplicada = false →
    ∀ r tl, s.amort_data = r :: tl → r.saldoFinal = s.saldo_pendiente
  flags_false : s.liquidacion_aplicada = false →
    (∀ r ∈ s.amort_data, r.liqAplicada = false) ∧
    s.saldo_para_liquidar = 0 ∧ s.fecha_liquidacion = none ∧
    s.total_liquidacion = 0
  flags_true : s.liquidacion_aplicada = true →
    s.saldo_pendiente = 0 ∧
    ∃ r tl, s.amort_data = r :: tl ∧ r.liqAplicada = true ∧
      (∀ x ∈ tl, x.liqAplicada = false) ∧
      s.fecha_liquidacion = some r.fecha ∧
      s.saldo_para_liquidar = r.saldoFinal ∧
      s.total_liquidacion = r.saldoFinal
  tail_props : ∀ r tl, s.amort_data = r :: tl →
    ∀ x ∈ tl, 0 < x.saldoFinal ∧
      x.saldoFinal = x.saldoInicial - x.abonoCapital - x.pagoExtra
  acc_int : s.total_intereses_pagados = (s.amort_data.map fun r => r.interes).sum
  acc_pm : s.total_pagos_mensuales = (s.amort_data.map fun r => r.pagoMensual).sum
  acc_ex : s.total_pagos_extra = (s.amort_data.map fun r => r.pagoExtra).sum
  meses_len : s.meses = s.amort_data.length
  mes_desc : s.amort_data.map (fun r => r.mes) = descList s.meses
  date_now : s.current_date = addMonths p.inicio_credito s.meses
  fecha_rec : ∀ r ∈ s.amort_data, r.fecha = addMonths p.inicio_credito r.mes

theorem Inv_initState (p : Params) (pago : ℚ) : Inv p pago (initState p) := by
  constructor <;> simp [initState, ChainedFrom, descList, addMonths]

theorem chained_cons_nil {c : ℚ} {r : MonthRecord}
    (h : r.saldoInicial = c) : ChainedFrom c [r] := h

theorem chained_cons_cons {c : ℚ} {r x : MonthRecord} {tl : List MonthRecord}
    (h : r.saldoInicial = x.saldoFinal) (h2 : ChainedFrom c (x :: tl)) :
    ChainedFrom c (r :: x :: tl) := ⟨h, h2⟩

theorem clampZero_nonneg (q : ℚ) : 0 ≤ clampZero q := by
  unfold clampZero; split_ifs with h
  · exact le_refl 0
  · linarith

theorem clampZero_of_nonneg {q : ℚ} (h : 0 ≤ q) : clampZero q = q := by
  unfold clampZero; split_ifs with h2
  · linarith
  · rfl

theorem clampZero_pos {q : ℚ} (h : 0 < clampZero q) : clampZero q = q := by
  unfold clampZero at h ⊢; split_ifs with h2
  · rw [if_pos h2] at h; exact absurd h (lt_irrefl 0)
  · rfl

theorem abonoCapitalDe_nonneg (p : Params) (pago saldo : ℚ) :
    0 ≤ abonoCapitalDe p pago saldo := by
  unfold abonoCapitalDe; split_ifs with h
  · exact le_refl 0
  · linarith

/-- The loop body preserves the invariant (on states where the loop guard
held, i.e. with a strictly positive balance). -/
theorem Inv_loopBody (p : Params) (pago : ℚ) (s : AmortState)
    (hInv : Inv p pago s) (hpos : 0 < s.saldo_pendiente) :
    Inv p pago (loopBody p pago s).1 := by
  have haplic : s.liquidacion_aplicada = false := by
    cases hliq : s.liquidacion_aplicada
    · rfl
    · have h0 := (hInv.flags_true hliq).1
      rw [h0] at hpos; exact absurd hpos (lt_irrefl 0)
  have hflags := hInv.flags_false haplic
  have hhead := hInv.head_match haplic
  dsimp only [loopBody]
  split_ifs with hfire
  · -- early-payoff branch
    obtain ⟨hf1, _, hf3, hf4⟩ := hfire
    have hhalf :
        s.saldo_pendiente - abonoCapitalDe p pago s.saldo_pendiente -
            extrasTotal p.pagos_recurrentes (addMonth s.current_date) -
          (s.saldo_pendiente - abonoCapitalDe p pago s.saldo_pendiente -
              extrasTotal p.pagos_recurrentes (addMonth s.current_date)) / 2 =
          (s.saldo_pendiente - abonoCapitalDe p pago s.saldo_pendiente -
              extrasTotal p.pagos_recurrentes (addMonth s.current_date)) / 2 := by
      ring
    have hfinal :
        clampZero
            (s.saldo_pendiente - abonoCapitalDe p pago s.saldo_pendiente -
                extrasTotal p.pagos_recurrentes (addMonth s.current_date) -
              (s.saldo_pendiente - abonoCapitalDe p pago s.saldo_pendiente -
                  extrasTotal p.pagos_recurrentes (addMonth s.current_date)) / 2) =
          (s.saldo_pendiente - abonoCapitalDe p pago s.saldo_pendiente -
              extrasTotal p.pagos_recurrentes (addMonth s.current_date)) / 2 := by
      rw [hhalf]; exact clampZero_of_nonneg (by linarith)
    constructor
    · -- recs
      intro r hr
      rcases List.mem_cons.mp hr with hr | hr
      · subst hr
        constructor
        · rfl
        · rfl
        · rfl
        · rfl
        · rfl
        · exact clampZero_nonneg _
        · intro h; cases h
        · intro _
          exact ⟨hf1, hf4, hf3, hfinal⟩
        · intro h; cases h
      · exact hInv.recs r hr
    · -- chain
      cases hdata : s.amort_data with
      | nil =>
        exact chained_cons_nil (hInv.empty_saldo hdata)
      | cons x tl =>
        exact chained_cons_cons (hhead x tl hdata).symm (hdata ▸ hInv.chain)
    · -- nonneg
      intro _; exact le_refl 0
    · -- empty_saldo
      intro h; cases h
    · -- head_match
      intro h; cases h
    · -- flags_false
      intro h; cases h
    · -- flags_true
      intro _
      refine ⟨rfl, _, s.amort_data, rfl, rfl, hflags.1, rfl, ?_, ?_⟩
      · exact hfinal.symm
      · rw [hflags.2.2.2]
        rw [zero_add]
        exact hfinal.symm
    · -- tail_props
      intro r tl h
      injection h with h1 h2
      subst h2
      intro x hx
      cases hdata : s.amort_data with
      | nil => rw [hdata] at hx; cases hx
      | cons y tl' =>
        rw [hdata] at hx
        rcases List.mem_cons.mp hx with hxy | hx'
        · subst hxy
          have hfin : x.saldoFinal = s.saldo_pendiente := hhead x tl' hdata
          have hxpos : 0 < x.saldoFinal := hfin ▸ hpos
          have hx_noliq : x.liqAplicada = false := hflags.1 x (hdata ▸ List.mem_cons_self x tl')
          have hclamp := (hInv.recs x (hdata ▸ List.mem_cons_self x tl')).final_noliq hx_noliq
          refine ⟨hxpos, ?_⟩
          rw [hclamp]
          exact clampZero_pos (hclamp ▸ hxpos)
        · exact hInv.tail_props y tl' hdata x hx'
    · -- acc_int
      rw [List.map_cons, List.sum_cons, hInv.acc_int]; ring
    · -- acc_pm
      rw [List.map_cons, List.sum_cons, hInv.acc_pm]; ring
    · -- acc_ex
      rw [List.map_cons, List.sum_cons, hInv.acc_ex]; ring
    · -- meses_len
      rw [List.length_cons, hInv.meses_len]
    · -- mes_desc
      rw [List.map_cons, hInv.mes_desc, hInv.meses_len]; rfl
    · -- date_now
      rw [hInv.date_now]; rfl
    · -- fecha_rec
      intro r hr
      rcases List.mem_cons.mp hr with hr | hr
      · subst hr
        show addMonth s.current_date = addMonths p.inicio_credito (s.meses + 1)
        rw [hInv.date_now]; rfl
      · exact hInv.fecha_rec r hr
  · -- ordinary branch
    constructor
    · -- recs
      intro r hr
      rcases List.mem_cons.mp hr with hr | hr
      · subst hr
        constructor
        · rfl
        · rfl
        · rfl
        · rfl
        · rfl
        · exact clampZero_nonneg _
        · intro _; rfl
        · intro h; cases h
        · intro _ hl hcond
          exact hfire ⟨hl, haplic, hcond.1, hcond.2⟩
      · exact hInv.recs r hr
    · -- chain
      cases hdata : s.amort_data with
      | nil =>
        exact chained_cons_nil (hInv.empty_saldo hdata)
      | cons x tl =>
        exact chained_cons_cons (hhead x tl hdata).symm (hdata ▸ hInv.chain)
    · -- nonneg
      intro _; exact clampZero_nonneg _
    · -- empty_saldo
      intro h; cases h
    · -- head_match
      intro _ r tl h
      injection h with h1 h2
      subst h1; rfl
    · -- flags_false
      intro _
      refine ⟨?_, hflags.2.1, hflags.2.2.1, hflags.2.2.2⟩
      intro r hr
      rcases List.mem_cons.mp hr with hr | hr
      · subst hr; rfl
      · exact hflags.1 r hr
    · -- flags_true
      intro h
      rw [haplic] at h; cases h
    · -- tail_props
      intro r tl h
      injection h with h1 h2
      subst h2
      intro x hx
      cases hdata : s.amort_data with
      | nil => rw [hdata] at hx; cases hx
      | cons y tl' =>
        rw [hdata] at hx
        rcases List.mem_cons.mp hx with hxy | hx'
        · subst hxy
          have hfin : x.saldoFinal = s.saldo_pendiente := hhead x tl' hdata
          have hxpos : 0 < x.saldoFinal := hfin ▸ hpos
          have hx_noliq : x.liqAplicada = false := hflags.1 x (hdata ▸ List.mem_cons_self x tl')
          have hclamp := (hInv.recs x (hdata ▸ List.mem_cons_self x tl')).final_noliq hx_noliq
          refine ⟨hxpos, ?_⟩
          rw [hclamp]
          exact clampZero_pos (hclamp ▸ hxpos)
        · exact hInv.tail_props y tl' hdata x hx'
    · -- acc_int
      rw [List.map_cons, List.sum_cons, hInv.acc_int]; ring
    · -- acc_pm
      rw [List.map_cons, List.sum_cons, hInv.acc_pm]; ring
    · -- acc_ex
      rw [List.map_cons, List.sum_cons, hInv.acc_ex]; ring
    · -- meses_len
      rw [List.length_cons, hInv.meses_len]
    · -- mes_desc
      rw [List.map_cons, hInv.mes_desc, hInv.meses_len]; rfl
    · -- date_now
      rw [hInv.date_now]; rfl
    · -- fecha_rec
      intro r hr
      rcases List.mem_cons.mp hr with hr | hr
      · subst hr
        show addMonth s.current_date = addMonths p.inicio_credito (s.meses + 1)
        rw [hInv.date_now]; rfl
      · exact hInv.fecha_rec r hr

/-- The `break` flag can only be set by the early-payoff branch, which
forces the balance to zero. -/
theorem loopBody_snd_saldo (p : Params) (pago : ℚ) (s : AmortState)
    (h : (loopBody p pago s).2 = true) :
    (loopBody p pago s).1.saldo_pendiente = 0 := by
  dsimp only [loopBody] at h ⊢
  split_ifs at h ⊢ with hfire
  rfl

/-- With `liquidar_al_25 = False` the loop never breaks early. -/
theorem loopBody_snd_of_not_liq (p : Params) (pago : ℚ) (s : AmortState)
    (hliq : p.liquidar_al_25 = false) : (loopBody p pago s).2 = false := by
  dsimp only [loopBody]
  split_ifs with hfire
  · rw [hliq] at hfire; cases hfire.1
  · rfl

/-- Any state the loop stops in has been driven to a non-positive balance
(the break path forces the balance to zero). -/
theorem runLoop_saldo_final (p : Params) (pago : ℚ) :
    ∀ (fuel : ℕ) (s s' : AmortState),
      runLoop p pago fuel s = some s' → s'.saldo_pendiente ≤ 0 := by
  intro fuel
  induction fuel with
  | zero =>
    intro s s' h
    unfold runLoop at h
    split_ifs at h with hpos
    injection h with h
    rw [← h]; linarith
  | succ n ih =>
    intro s s' h
    unfold runLoop at h
    dsimp only at h
    split_ifs at h with hpos hbrk
    · injection h with h
      rw [← h]
      exact le_of_eq (loopBody_snd_saldo p pago s hbrk)
    · exact ih _ _ h
    · injection h with h
      rw [← h]; linarith

/-- The invariant transports along the loop. -/
theorem runLoop_inv (p : Params) (pago : ℚ) :
    ∀ (fuel : ℕ) (s s' : AmortState), Inv p pago s →
      runLoop p pago fuel s = some s' → Inv p pago s' := by
  intro fuel
  induction fuel with
  | zero =>
    intro s s' hInv h
    unfold runLoop at h
    split_ifs at h with hpos
    injection h with h
    exact h ▸ hInv
  | succ n ih =>
    intro s s' hInv h
    unfold runLoop at h
    dsimp only at h
    split_ifs at h with hpos hbrk
    · injection h with h
      exact h ▸ Inv_loopBody p pago s hInv hpos
    · exact ih _ _ (Inv_loopBody p pago s hInv hpos) h
    · injection h with h
      exact h ▸ hInv

/-- Decomposition of a successful simulation: a stopping state of the loop
exists, satisfies the invariant, has non-positive balance, and the returned
table and summary are read off it. -/
theorem simulate_ok_elim {p : Params} {fuel : ℕ} {recs : List MonthRecord}
    {res : Resumen} (h : simulate p fuel = .ok recs res) :
    ∃ s, runLoop p (pagoMensualAproximado p) fuel (initState p) = some s ∧
      recs = s.amort_data.reverse ∧ res = mkResumen p s ∧
      Inv p (pagoMensualAproximado p) s ∧ s.saldo_pendiente ≤ 0 := by
  unfold simulate at h
  split_ifs at h with hdeg
  revert h
  cases hrun : runLoop p (pagoMensualAproximado p) fuel (initState p) with
  | none => intro h; cases h
  | some s =>
    intro h
    injection h with h1 h2
    exact ⟨s, rfl, h1.symm, h2.symm,
      runLoop_inv p _ fuel _ s (Inv_initState p _) hrun,
      runLoop_saldo_final p _ fuel _ s hrun⟩

theorem extrasTotal_nil (d : Date) : extrasTotal [] d = 0 := rfl

theorem sumAbonoExtra_reverse (l : List MonthRecord) :
    sumAbonoExtra l.reverse = sumAbonoExtra l := by
  unfold sumAbonoExtra
  rw [List.map_reverse, List.sum_reverse]

theorem payoffTotal_reverse (l : List MonthRecord) :
    payoffTotal l.reverse = payoffTotal l := by
  unfold payoffTotal
  rw [List.filter_reverse, List.map_reverse, List.sum_reverse]

theorem payoffTotal_of_unflagged {l : List MonthRecord}
    (h : ∀ r ∈ l, r.liqAplicada = false) : payoffTotal l = 0 := by
  unfold payoffTotal
  have hfil : l.filter (fun r => r.liqAplicada) = [] := by
    induction l with
    | nil => rfl
    | cons a l ih =>
      rw [List.filter_cons_of_neg, ih]
      · intro r hr; exact h r (List.mem_cons_of_mem a hr)
      · rw [h a (List.mem_cons_self a l)]; exact Bool.false_ne_true
  rw [hfil]; rfl

theorem payoffTotal_flagged_head {hd : MonthRecord} {tl : List MonthRecord}
    (hhd : hd.liqAplicada = true) (htl : ∀ r ∈ tl, r.liqAplicada = false) :
    payoffTotal (hd :: tl) = hd.saldoFinal := by
  unfold payoffTotal
  rw [List.filter_cons_of_pos hhd]
  have hfil : tl.filter (fun r => r.liqAplicada) = [] := by
    induction tl with
    | nil => rfl
    | cons a l ih =>
      rw [List.filter_cons_of_neg, ih]
      · intro r hr; exact htl r (List.mem_cons_of_mem a hr)
      · rw [htl a (List.mem_cons_self a l)]; exact Bool.false_ne_true
  rw [hfil, List.map_cons, List.sum_cons, List.map_nil, List.sum_nil, add_zero]

theorem Inv_head_mes {p : Params} {pago : ℚ} {s : AmortState}
    (hInv : Inv p pago s) {hd : MonthRecord} {tl : List MonthRecord}
    (hdata : s.amort_data = hd :: tl) : hd.mes = s.meses := by
  have h1 := hInv.mes_desc
  have h2 := hInv.meses_len
  rw [hdata, List.length_cons] at h2
  rw [hdata, List.map_cons, h2] at h1
  have h3 : descList (tl.length + 1) = (tl.length + 1) :: descList tl.length := rfl
  rw [h3] at h1
  injection h1 with h4 h5
  rw [h4, h2]

theorem Inv_aplicada_false {p : Params} {pago : ℚ} {s : AmortState}
    (hInv : Inv p pago s) (hliq : p.liquidar_al_25 = false) :
    s.liquidacion_aplicada = false := by
  cases ha : s.liquidacion_aplicada
  · rfl
  · obtain ⟨-, r, tl, hdata, hflag, -⟩ := hInv.flags_true ha
    have hl := ((hInv.recs r (hdata ▸ List.mem_cons_self r tl)).final_liq hflag).1
    rw [hliq] at hl; cases hl

theorem chainedFrom_chain' {c : ℚ} :
    ∀ l : List MonthRecord, ChainedFrom c l →
      List.Chain' (fun a b => b.saldoFinal = a.saldoInicial) l
  | [] => fun _ => List.chain'_nil
  | [_] => fun _ => by simp
  | r :: r' :: tl => fun h => by
      rw [List.chain'_cons]
      exact ⟨h.1.symm, chainedFrom_chain' (r' :: tl) h.2⟩

theorem sumAE_head (c : ℚ) :
    ∀ (tl : List MonthRecord) (hd : MonthRecord), ChainedFrom c (hd :: tl) →
      (∀ x ∈ tl, x.saldoFinal = x.saldoInicial - x.abonoCapital - x.pagoExtra) →
      sumAbonoExtra (hd :: tl) =
        c - (hd.saldoInicial - hd.abonoCapital - hd.pagoExtra)
  | [], hd => by
      intro hchain _
      have hini : hd.saldoInicial = c := hchain
      unfold sumAbonoExtra
      rw [List.map_cons, List.sum_cons, List.map_nil, List.sum_nil, hini]
      ring
  | x :: tl, hd => by
      intro hchain htl
      have ih := sumAE_head c tl x hchain.2
        (fun y hy => htl y (List.mem_cons_of_mem x hy))
      have hx := htl x (List.mem_cons_self x tl)
      have hhd : hd.saldoInicial = x.saldoFinal := hchain.1
      have hstep : sumAbonoExtra (hd :: x :: tl) =
          hd.abonoCapital + hd.pagoExtra + sumAbonoExtra (x :: tl) := by
        unfold sumAbonoExtra
        rw [List.map_cons, List.sum_cons]
      rw [hstep, ih, hx] at *
      rw [hhd]
      ring

/-- **C2**: the scheduled monthly payment is computed from the annuity
formula on the original principal plus the insurance add-on on the original
principal, and this one value is the scheduled payment of every emitted
record, while the recorded insurance charge of each month is recomputed
from that month's beginning balance. -/
theorem C2_pago_mensual_fijo (p : Params) (fuel : ℕ)
    (recs : List MonthRecord) (res : Resumen)
    (hok : simulate p fuel = .ok recs res) :
    ∀ r ∈ recs,
      r.pagoMensual =
        (p.tasa_interes_anual / 12 * p.credito_total) /
          (1 - ((1 + p.tasa_interes_anual / 12) ^ (p.plazo_anios * 12))⁻¹) +
          (p.credito_total * p.tasa_seguros_anual) / 12 ∧
      r.seguro = r.saldoInicial * p.tasa_seguros_anual / 12 := by
  obtain ⟨s, -, hrecs, -, hInv, -⟩ := simulate_ok_elim hok
  subst hrecs
  intro r hr
  rw [List.mem_reverse] at hr
  have hre := hInv.recs r hr
  exact ⟨hre.pagoM, hre.seguro_eq⟩

/-- **C5**: the emitted schedule is contiguous (each month's ending balance
is the next month's beginning balance) and every recorded ending balance is
non-negative, being clamped to zero exactly when the month's subtractions
would drive it negative. -/
theorem C5_contiguidad (p : Params) (fuel : ℕ)
    (recs : List MonthRecord) (res : Resumen)
    (hok : simulate p fuel = .ok recs res) :
    List.Chain' (fun a b => a.saldoFinal = b.saldoInicial) recs ∧
    ∀ r ∈ recs, 0 ≤ r.saldoFinal ∧
      (r.liqAplicada = false →
        r.saldoFinal = clampZero (r.saldoInicial - r.abonoCapital - r.pagoExtra)) := by
  obtain ⟨s, -, hrecs, -, hInv, -⟩ := simulate_ok_elim hok
  subst hrecs
  constructor
  · rw [List.chain'_reverse]
    exact chainedFrom_chain' _ hInv.chain
  · intro r hr
    rw [List.mem_reverse] at hr
    have hre := hInv.recs r hr
    exact ⟨hre.final_nonneg, hre.final_noliq⟩

theorem filter_liq_nil {l : List MonthRecord}
    (h : ∀ r ∈ l, r.liqAplicada = false) :
    l.filter (fun r => r.liqAplicada) = [] := by
  induction l with
  | nil => rfl
  | cons a l ih =>
    rw [List.filter_cons_of_neg, ih]
    · intro r hr; exact h r (List.mem_cons_of_mem a hr)
    · rw [h a (List.mem_cons_self a l)]; exact Bool.false_ne_true

theorem Inv_payoff_eqs {p : Params} {pago : ℚ} {s : AmortState}
    (hInv : Inv p pago s) :
    s.saldo_para_liquidar = payoffTotal s.amort_data ∧
    s.total_liquidacion = payoffTotal s.amort_data := by
  cases ha : s.liquidacion_aplicada
  · have hfl := hInv.flags_false ha
    rw [payoffTotal_of_unflagged hfl.1]
    exact ⟨hfl.2.1, hfl.2.2.2⟩
  · obtain ⟨-, hd, tl, hdata, hhd, htl, -, hsp, htq⟩ := hInv.flags_true ha
    rw [hdata, payoffTotal_flagged_head hhd htl]
    exact ⟨hsp, htq⟩

/-- **C1**: with early payoff enabled, the payoff fires in the first month
whose post-subtraction balance is positive and at most a quarter of the
original principal, disburses half that balance, and is recorded in exactly
one `MonthRecord`, which is the last one and whose month index is the
reported duration. -/
theorem C1_liquidacion_anticipada (p : Params) (fuel : ℕ)
    (recs : List MonthRecord) (res : Resumen)
    (hliq : p.liquidar_al_25 = true)
    (hok : simulate p fuel = .ok recs res) :
    (recs.filter fun r => r.liqAplicada).length ≤ 1 ∧
    ((∃ r ∈ recs, r.liqAplicada = true) ↔ res.fecha_liquidacion.isSome = true) ∧
    (∀ r ∈ recs, r.liqAplicada = true →
      recs.getLast? = some r ∧
      res.duracion_total_meses = r.mes ∧
      0 < r.saldoInicial - r.abonoCapital - r.pagoExtra ∧
      r.saldoInicial - r.abonoCapital - r.pagoExtra ≤ p.credito_total * 0.25 ∧
      r.saldoFinal = (r.saldoInicial - r.abonoCapital - r.pagoExtra) / 2) ∧
    (∀ r ∈ recs, r.liqAplicada = false →
      ¬(r.saldoInicial - r.abonoCapital - r.pagoExtra ≤ p.credito_total * 0.25 ∧
        0 < r.saldoInicial - r.abonoCapital - r.pagoExtra)) := by
  obtain ⟨s, -, hrecs, hres, hInv, -⟩ := simulate_ok_elim hok
  subst hrecs; subst hres
  cases ha : s.liquidacion_aplicada
  · have hfl := hInv.flags_false ha
    have hnone : ∀ r ∈ s.amort_data.reverse, r.liqAplicada = false :=
      fun r hr => hfl.1 r (List.mem_reverse.mp hr)
    refine ⟨?_, ?_, ?_, ?_⟩
    · rw [filter_liq_nil hnone]; simp
    · constructor
      · rintro ⟨r, hr, hflag⟩
        rw [hnone r hr] at hflag; cases hflag
      · intro h
        exfalso
        have : (mkResumen p s).fecha_liquidacion = none := hfl.2.2.1
        rw [this] at h; cases h
    · intro r hr hflag
      rw [hnone r hr] at hflag; cases hflag
    · intro r hr hfalse
      exact (hInv.recs r (List.mem_reverse.mp hr)).no_trigger hfalse hliq
  · obtain ⟨hsal, hd, tl, hdata, hhd, htl, hfecha, hsp, htq⟩ := hInv.flags_true ha
    have hmem_hd : hd ∈ s.amort_data := hdata ▸ List.mem_cons_self hd tl
    have honly : ∀ r ∈ s.amort_data.reverse, r.liqAplicada = true → r = hd := by
      intro r hr hflag
      rw [List.mem_reverse, hdata] at hr
      rcases List.mem_cons.mp hr with hr | hr
      · exact hr
      · rw [htl r hr] at hflag; cases hflag
    refine ⟨?_, ?_, ?_, ?_⟩
    · rw [List.filter_reverse, List.length_reverse, hdata,
        List.filter_cons_of_pos hhd, filter_liq_nil htl]
      simp
    · constructor
      · intro _
        have : (mkResumen p s).fecha_liquidacion = some hd.fecha := hfecha
        rw [this]; rfl
      · intro _
        refine ⟨hd, ?_, hhd⟩
        rw [List.mem_reverse]; exact hmem_hd
    · intro r hr hflag
      have hrhd : r = hd := honly r hr hflag
      subst hrhd
      have hfl := (hInv.recs r hmem_hd).final_liq hhd
      refine ⟨?_, ?_, hfl.2.1, hfl.2.2.1, hfl.2.2.2⟩
      · rw [List.getLast?_reverse, hdata]; rfl
      · show s.meses = r.mes
        exact (Inv_head_mes hInv hdata).symm
    · intro r hr hfalse
      exact (hInv.recs r (List.mem_reverse.mp hr)).no_trigger hfalse hliq

/-- **C8**: the flagged (early-payoff) record is the last one, its recorded
ending balance equals half the balance the month reached after principal and
extras — a strictly positive amount, not zero. -/
theorem C8_saldo_final_liquidacion (p : Params) (fuel : ℕ)
    (recs : List MonthRecord) (res : Resumen)
    (hok : simulate p fuel = .ok recs res)
    (r : MonthRecord) (hr : r ∈ recs) (hflag : r.liqAplicada = true) :
    recs.getLast? = some r ∧
    r.saldoFinal = (r.saldoInicial - r.abonoCapital - r.pagoExtra) / 2 ∧
    0 < r.saldoFinal := by
  obtain ⟨s, -, hrecs, -, hInv, -⟩ := simulate_ok_elim hok
  subst hrecs
  rw [List.mem_reverse] at hr
  cases ha : s.liquidacion_aplicada
  · rw [(hInv.flags_false ha).1 r hr] at hflag; cases hflag
  · obtain ⟨-, hd, tl, hdata, hhd, htl, -, -, -⟩ := hInv.flags_true ha
    have hrhd : r = hd := by
      rw [hdata] at hr
      rcases List.mem_cons.mp hr with hr | hr
      · exact hr
      · rw [htl r hr] at hflag; cases hflag
    subst hrhd
    have hfl := (hInv.recs r (hdata ▸ List.mem_cons_self r tl)).final_liq hhd
    refine ⟨?_, hfl.2.2.2, ?_⟩
    · rw [List.getLast?_reverse, hdata]; rfl
    · rw [hfl.2.2.2]
      exact half_pos hfl.2.1

/-- **C6** (amended): the four monetary fields of the returned summary are
the two-decimal roundings of the exact sums of the per-month fields; the
rounding is applied once, when the summary is built, and never feeds back
into the loop. -/
theorem C6_redondeo_resumen (p : Params) (fuel : ℕ)
    (recs : List MonthRecord) (res : Resumen)
    (hok : simulate p fuel = .ok recs res) :
    res.pago_mensual = round2 (pagoMensualAproximado p) ∧
    res.total_intereses_pagados = round2 ((recs.map fun r => r.interes).sum) ∧
    res.saldo_liquidacion = round2 (payoffTotal recs) ∧
    res.total_pagado = round2 ((recs.map fun r => r.pagoMensual).sum +
      (recs.map fun r => r.pagoExtra).sum + payoffTotal recs) := by
  obtain ⟨s, -, hrecs, hres, hInv, -⟩ := simulate_ok_elim hok
  subst hrecs; subst hres
  have hpay := Inv_payoff_eqs hInv
  refine ⟨rfl, ?_, ?_, ?_⟩
  · show round2 s.total_intereses_pagados = _
    rw [hInv.acc_int, List.map_reverse, List.sum_reverse]
  · show round2 s.saldo_para_liquidar = _
    rw [hpay.1, payoffTotal_reverse]
  · show round2 (s.total_pagos_mensuales + s.total_pagos_extra +
      s.total_liquidacion) = _
    rw [hInv.acc_pm, hInv.acc_ex, hpay.2, payoffTotal_reverse,
      List.map_reverse, List.sum_reverse, List.map_reverse, List.sum_reverse]

/-- **C4** (amended): exact conservation: the sum of principal portions and
extras plus the payoff amount plus the final month's pre-clamp,
post-payoff balance equals the original principal.  When the last record is
unflagged and its subtractions did not overshoot, the sum alone is exactly
the principal; when the payoff fired, sum plus payoff falls short of the
principal by the recorded final balance (the forgiven half). -/
theorem C4_conservacion (p : Params) (fuel : ℕ)
    (recs : List MonthRecord) (res : Resumen)
    (hok : simulate p fuel = .ok recs res)
    (lr : MonthRecord) (hlast : recs.getLast? = some lr) :
    sumAbonoExtra recs + payoffTotal recs +
      (lr.saldoInicial - lr.abonoCapital - lr.pagoExtra - payoffTotal recs) =
      p.credito_total ∧
    (lr.liqAplicada = false →
      0 ≤ lr.saldoInicial - lr.abonoCapital - lr.pagoExtra →
      sumAbonoExtra recs = p.credito_total) ∧
    (lr.liqAplicada = true →
      sumAbonoExtra recs + payoffTotal recs =
        p.credito_total - lr.saldoFinal) := by
  obtain ⟨s, -, hrecs, -, hInv, hsaldo⟩ := simulate_ok_elim hok
  subst hrecs
  rw [List.getLast?_reverse] at hlast
  obtain ⟨tl, hdata⟩ : ∃ tl, s.amort_data = lr :: tl := by
    cases hdata : s.amort_data with
    | nil => rw [hdata] at hlast; cases hlast
    | cons hd tl =>
      rw [hdata] at hlast
      injection hlast with hlast
      exact ⟨tl, by rw [hlast]⟩
  have hmem : lr ∈ s.amort_data := hdata ▸ List.mem_cons_self lr tl
  have htail := hInv.tail_props lr tl hdata
  have hsum : sumAbonoExtra s.amort_data.reverse =
      p.credito_total - (lr.saldoInicial - lr.abonoCapital - lr.pagoExtra) := by
    rw [sumAbonoExtra_reverse, hdata]
    exact sumAE_head p.credito_total tl lr (hdata ▸ hInv.chain)
      (fun x hx => (htail x hx).2)
  refine ⟨by rw [hsum]; ring, ?_, ?_⟩
  · intro hnoliq hpre
    have ha : s.liquidacion_aplicada = false := by
      cases ha : s.liquidacion_aplicada
      · rfl
      · obtain ⟨-, hd', tl', hdata', hhd', -⟩ := hInv.flags_true ha
        rw [hdata] at hdata'
        injection hdata' with h1 h2
        rw [← h1] at hhd'
        rw [hnoliq] at hhd'; cases hhd'
    have hfl := hInv.flags_false ha
    have hzero : payoffTotal s.amort_data.reverse = 0 := by
      rw [payoffTotal_reverse]
      exact payoffTotal_of_unflagged hfl.1
    have hfin : lr.saldoFinal = s.saldo_pendiente :=
      hInv.head_match ha lr tl hdata
    have hfin0 : lr.saldoFinal = 0 :=
      le_antisymm (hfin ▸ hsaldo) ((hInv.recs lr hmem).final_nonneg)
    have hclamp := (hInv.recs lr hmem).final_noliq hnoliq
    rw [clampZero_of_nonneg hpre] at hclamp
    rw [hsum]
    linarith [hclamp, hfin0]
  · intro hflag
    have ha : s.liquidacion_aplicada = true := by
      cases ha : s.liquidacion_aplicada
      · rw [(hInv.flags_false ha).1 lr hmem] at hflag
        cases hflag
      · rfl
    obtain ⟨-, hd', tl', hdata', hhd', htl', -, -, -⟩ := hInv.flags_true ha
    rw [hdata] at hdata'
    injection hdata' with h1 h2
    subst h2
    have hpt : payoffTotal s.amort_data.reverse = lr.saldoFinal := by
      rw [payoffTotal_reverse, hdata]
      exact payoffTotal_flagged_head hflag htl'
    have hfl := (hInv.recs lr hmem).final_liq hflag
    rw [hsum, hpt, hfl.2.2.2]
    ring

theorem round2_zero : round2 0 = 0 := by
  norm_num [round2, roundHalfToEven]

/-- **C10** (amended): provided the annuity denominator is not degenerate,
a non-positive principal makes the loop body never execute: the engine
returns an empty table and a summary with zero duration, no payoff date and
zero totals. -/
theorem C10_credito_no_positivo (p : Params) (fuel : ℕ)
    (hc : p.credito_total ≤ 0) (hdeg : ¬degenerate p) :
    simulate p fuel = .ok []
      { duracion_total_meses := 0, fecha_liquidacion := none,
        pago_mensual := round2 (pagoMensualAproximado p),
        credito_total := p.credito_total,
        tasa_interes_anual := p.tasa_interes_anual,
        saldo_liquidacion := 0, total_intereses_pagados := 0,
        total_pagado := 0 } := by
  have hnot : ¬(0 < (initState p).saldo_pendiente) := not_lt.mpr hc
  have hrun : runLoop p (pagoMensualAproximado p) fuel (initState p) =
      some (initState p) := by
    cases fuel with
    | zero => unfold runLoop; rw [if_neg hnot]
    | succ n => unfold runLoop; dsimp only; rw [if_neg hnot]
  unfold simulate
  rw [if_neg hdeg, hrun]
  show SimOutcome.ok (initState p).amort_data.reverse
    (mkResumen p (initState p)) = _
  have hres : mkResumen p (initState p) =
      { duracion_total_meses := 0, fecha_liquidacion := none,
        pago_mensual := round2 (pagoMensualAproximado p),
        credito_total := p.credito_total,
        tasa_interes_anual := p.tasa_interes_anual,
        saldo_liquidacion := 0, total_intereses_pagados := 0,
        total_pagado := 0 } := by
    unfold mkResumen initState
    dsimp only
    rw [add_zero, add_zero, round2_zero]
  rw [hres]
  rfl

theorem daysInMonth_ge (y m : ℕ) : 28 ≤ daysInMonth y m := by
  unfold daysInMonth
  split_ifs <;> norm_num

theorem addMonth_day {d : Date} (h : d.day ≤ 28) : (addMonth d).day = d.day := by
  unfold addMonth
  exact min_eq_left (le_trans h (daysInMonth_ge _ _))

theorem addMonths_day (d : Date) (h : d.day ≤ 28) :
    ∀ n, (addMonths d n).day = d.day
  | 0 => rfl
  | n + 1 => by
      have hn := addMonths_day d h n
      show (addMonth (addMonths d n)).day = d.day
      rw [addMonth_day (by rw [hn]; exact h), hn]

theorem extrasTotal_remove (l₁ l₂ : List (ℕ × ℕ × ℚ)) (pe : ℕ × ℕ × ℚ)
    (d : Date) (hne : d.day ≠ pe.2.1) :
    extrasTotal (l₁ ++ pe :: l₂) d = extrasTotal (l₁ ++ l₂) d := by
  unfold extrasTotal
  rw [List.filter_append, List.filter_append, List.filter_cons_of_neg]
  simp only [Bool.and_eq_true, beq_iff_eq]
  rintro ⟨-, h⟩
  exact hne h

theorem loopBody_fst_date (p : Params) (pago : ℚ) (s : AmortState) :
    (loopBody p pago s).1.current_date = addMonth s.current_date := by
  dsimp only [loopBody]
  split_ifs <;> rfl

theorem loopBody_remove (p : Params) (l₁ l₂ : List (ℕ × ℕ × ℚ))
    (pe : ℕ × ℕ × ℚ) (pago : ℚ) (s : AmortState)
    (hsplit : p.pagos_recurrentes = l₁ ++ pe :: l₂)
    (hmis : (addMonth s.current_date).day ≠ pe.2.1) :
    loopBody { p with pagos_recurrentes := l₁ ++ l₂ } pago s =
      loopBody p pago s := by
  have hex : extrasTotal (l₁ ++ l₂) (addMonth s.current_date) =
      extrasTotal p.pagos_recurrentes (addMonth s.current_date) := by
    rw [hsplit]
    exact (extrasTotal_remove l₁ l₂ pe _ hmis).symm
  have hab : abonoCapitalDe { p with pagos_recurrentes := l₁ ++ l₂ } pago
      s.saldo_pendiente = abonoCapitalDe p pago s.saldo_pendiente := rfl
  have htm : tasaMensual { p with pagos_recurrentes := l₁ ++ l₂ } =
      tasaMensual p := rfl
  unfold loopBody
  dsimp only
  rw [hex, hab, htm]

theorem runLoop_remove (p : Params) (l₁ l₂ : List (ℕ × ℕ × ℚ))
    (pe : ℕ × ℕ × ℚ) (pago : ℚ)
    (hsplit : p.pagos_recurrentes = l₁ ++ pe :: l₂)
    (hday : p.inicio_credito.day ≤ 28)
    (hne : pe.2.1 ≠ p.inicio_credito.day) :
    ∀ (fuel : ℕ) (s : AmortState),
      s.current_date.day = p.inicio_credito.day →
      runLoop { p with pagos_recurrentes := l₁ ++ l₂ } pago fuel s =
        runLoop p pago fuel s := by
  intro fuel
  induction fuel with
  | zero => intro s _; rfl
  | succ n ih =>
    intro s hs
    have hmis : (addMonth s.current_date).day ≠ pe.2.1 := by
      rw [addMonth_day (by rw [hs]; exact hday), hs]
      exact Ne.symm hne
    have hbody := loopBody_remove p l₁ l₂ pe pago s hsplit hmis
    unfold runLoop
    dsimp only
    rw [hbody]
    by_cases hpos : 0 < s.saldo_pendiente
    · rw [if_pos hpos, if_pos hpos]
      by_cases hbrk : (loopBody p pago s).2 = true
      · rw [if_pos hbrk, if_pos hbrk]
      · rw [if_neg hbrk, if_neg hbrk]
        apply ih
        rw [loopBody_fst_date, addMonth_day (by rw [hs]; exact hday), hs]
    · rw [if_neg hpos, if_neg hpos]

/-- **C9**: when the start day-of-month is at most 28, every simulated date
keeps that day, so a recurring extra payment dated on any other day is never
applied: the simulation result equals that of the same inputs with the
entry removed. -/
theorem C9_dia_no_coincidente (p : Params) (fuel : ℕ)
    (l₁ l₂ : List (ℕ × ℕ × ℚ)) (pe : ℕ × ℕ × ℚ)
    (hsplit : p.pagos_recurrentes = l₁ ++ pe :: l₂)
    (hday : p.inicio_credito.day ≤ 28)
    (hne : pe.2.1 ≠ p.inicio_credito.day) :
    (∀ recs res, simulate p fuel = .ok recs res →
      ∀ r ∈ recs, r.fecha.day = p.inicio_credito.day) ∧
    simulate p fuel = simulate { p with pagos_recurrentes := l₁ ++ l₂ } fuel := by
  constructor
  · intro recs res hok r hr
    obtain ⟨s, -, hrecs, -, hInv, -⟩ := simulate_ok_elim hok
    subst hrecs
    rw [List.mem_reverse] at hr
    rw [hInv.fecha_rec r hr]
    exact addMonths_day _ hday _
  · unfold simulate
    by_cases hdeg : degenerate p
    · rw [if_pos hdeg,
        if_pos (show degenerate { p with pagos_recurrentes := l₁ ++ l₂ } from hdeg)]
    · rw [if_neg hdeg,
        if_neg (show ¬degenerate { p with pagos_recurrentes := l₁ ++ l₂ } from hdeg)]
      have hrun := runLoop_remove p l₁ l₂ pe (pagoMensualAproximado p)
        hsplit hday hne fuel (initState p) rfl
      show (match runLoop p (pagoMensualAproximado p) fuel (initState p) with
            | none => SimOutcome.fuelExhausted
            | some s => SimOutcome.ok s.amort_data.reverse (mkResumen p s)) =
          (match runLoop { p with pagos_recurrentes := l₁ ++ l₂ }
              (pagoMensualAproximado p) fuel (initState p) with
            | none => SimOutcome.fuelExhausted
            | some s => SimOutcome.ok s.amort_data.reverse
                (mkResumen { p with pagos_recurrentes := l₁ ++ l₂ } s))
      have hmk : mkResumen { p with pagos_recurrentes := l₁ ++ l₂ } =
          mkResumen p := rfl
      rw [hrun, hmk]

theorem loopBody_saldo_of_not_liq (p : Params) (pago : ℚ) (s : AmortState)
    (hliq : p.liquidar_al_25 = false) :
    (loopBody p pago s).1.saldo_pendiente =
      clampZero (s.saldo_pendiente - abonoCapitalDe p pago s.saldo_pendiente -
        extrasTotal p.pagos_recurrentes (addMonth s.current_date)) := by
  dsimp only [loopBody]
  split_ifs with hfire
  · rw [hliq] at hfire; cases hfire.1
  · rfl

theorem loopBody_fst_meses (p : Params) (pago : ℚ) (s : AmortState) :
    (loopBody p pago s).1.meses = s.meses + 1 := by
  dsimp only [loopBody]
  split_ifs <;> rfl

theorem loopBody_fst_len (p : Params) (pago : ℚ) (s : AmortState) :
    (loopBody p pago s).1.amort_data.length = s.amort_data.length + 1 := by
  dsimp only [loopBody]
  split_ifs <;> rfl

/-- An input on which the `while` loop never reaches zero balance: a
recurring "extra payment" with a negative amount pushes the balance above
the level where the whole scheduled payment is eaten by interest, so the
principal portion floors at zero forever. -/
def ejemploExtraNegativo : Params :=
  { credito_total := 1000, tasa_interes_anual := 12/100, plazo_anios := 1,
    inicio_credito := ⟨2024, 12, 5⟩,
    pagos_recurrentes := [(1, 5, -1000000)],
    liquidar_al_25 := false, tasa_seguros_anual := 0 }

theorem ejemploExtraNegativo_pago_lt :
    pagoMensualAproximado ejemploExtraNegativo < 100 := by
  norm_num [pagoMensualAproximado, pagoMensualSinSeguros, costoSegurosInicial,
    tasaMensual, ejemploExtraNegativo]

theorem extrasTotal_singleton (m d : ℕ) (q : ℚ) (dt : Date) :
    extrasTotal [(m, d, q)] dt =
      if dt.month == m && dt.day == d then q else 0 := by
  unfold extrasTotal
  rw [List.filter_cons]
  split_ifs with h
  · simp
  · simp

theorem ejemploExtraNegativo_extras (d : Date) :
    extrasTotal ejemploExtraNegativo.pagos_recurrentes d ≤ 0 := by
  show extrasTotal [(1, 5, -1000000)] d ≤ 0
  rw [extrasTotal_singleton]
  split_ifs with h
  · norm_num
  · exact le_refl 0

theorem ejemploExtraNegativo_loop :
    ∀ (fuel : ℕ) (s : AmortState), 10000 ≤ s.saldo_pendiente →
      runLoop ejemploExtraNegativo
        (pagoMensualAproximado ejemploExtraNegativo) fuel s = none := by
  intro fuel
  induction fuel with
  | zero =>
    intro s hs
    unfold runLoop
    rw [if_pos (by linarith)]
  | succ n ih =>
    intro s hs
    have hpos : 0 < s.saldo_pendiente := by linarith
    have habono : abonoCapitalDe ejemploExtraNegativo
        (pagoMensualAproximado ejemploExtraNegativo) s.saldo_pendiente = 0 := by
      unfold abonoCapitalDe
      rw [if_pos]
      have ht : tasaMensual ejemploExtraNegativo = 1 / 100 := by
        norm_num [tasaMensual, ejemploExtraNegativo]
      have hsg : ejemploExtraNegativo.tasa_seguros_anual = 0 := rfl
      rw [ht, hsg]
      have := ejemploExtraNegativo_pago_lt
      linarith
    have hstep : 10000 ≤ (loopBody ejemploExtraNegativo
        (pagoMensualAproximado ejemploExtraNegativo) s).1.saldo_pendiente := by
      rw [loopBody_saldo_of_not_liq _ _ _ rfl, habono]
      have hex := ejemploExtraNegativo_extras (addMonth s.current_date)
      rw [clampZero_of_nonneg (by linarith)]
      linarith
    unfold runLoop
    dsimp only
    rw [if_pos hpos, loopBody_snd_of_not_liq _ _ _ rfl,
      if_neg Bool.false_ne_true]
    exact ih _ hstep

/-- **C7**: on `ejemploExtraNegativo` the loop never reaches a non-positive
balance: whatever the fuel, the model reports `fuelExhausted` — the Python
`while` loop would run forever.  The code has no iteration cap and raises
no error, contradicting the spec's requirement to fail explicitly. -/
theorem C7_no_terminacion (fuel : ℕ) :
    simulate ejemploExtraNegativo fuel = .fuelExhausted := by
  have hdeg : ¬degenerate ejemploExtraNegativo := by
    norm_num [degenerate, tasaMensual, ejemploExtraNegativo]
  have hnone : runLoop ejemploExtraNegativo
      (pagoMensualAproximado ejemploExtraNegativo) fuel
      (initState ejemploExtraNegativo) = none := by
    have hpos0 : 0 < (initState ejemploExtraNegativo).saldo_pendiente := by
      norm_num [initState, ejemploExtraNegativo]
    cases fuel with
    | zero =>
      unfold runLoop
      rw [if_pos hpos0]
    | succ n =>
      have hstep : 10000 ≤ (loopBody ejemploExtraNegativo
          (pagoMensualAproximado ejemploExtraNegativo)
          (initState ejemploExtraNegativo)).1.saldo_pendiente := by
        rw [loopBody_saldo_of_not_liq _ _ _ rfl]
        norm_num [initState, ejemploExtraNegativo, abonoCapitalDe, tasaMensual,
          extrasTotal, addMonth, daysInMonth, isLeap, clampZero,
          pagoMensualAproximado, pagoMensualSinSeguros, costoSegurosInicial,
          List.filter]
      unfold runLoop
      dsimp only
      rw [if_pos hpos0, loopBody_snd_of_not_liq _ _ _ rfl,
        if_neg Bool.false_ne_true]
      exact ejemploExtraNegativo_loop n _ hstep
  unfold simulate
  rw [if_neg hdeg, hnone]

/-- `(1 + monthly rate) ^ (term in months)`. -/
def factorA (p : Params) : ℚ :=
  (1 + tasaMensual p) ^ (p.plazo_anios * 12)

/-- Closed form of the textbook annuity balance after `m` months, an upper
bound for the loop's balance (the fixed insurance add-on only accelerates
amortization). -/
def annB (p : Params) (m : ℕ) : ℚ :=
  p.credito_total * (factorA p - (1 + tasaMensual p) ^ m) / (factorA p - 1)

/-- Minimum monthly principal reduction while the balance is at most the
original principal. -/
def deltaMin (p : Params) : ℚ :=
  tasaMensual p * p.credito_total / (factorA p - 1)

section C3Machinery

variable {p : Params}

theorem tasaMensual_pos (hr : 0 < p.tasa_interes_anual) :
    0 < tasaMensual p :=
  div_pos hr (by norm_num)

theorem one_lt_factorA (hr : 0 < p.tasa_interes_anual)
    (hn : 1 ≤ p.plazo_anios) : 1 < factorA p := by
  unfold factorA
  have h1 : 1 < 1 + tasaMensual p := by linarith [tasaMensual_pos hr]
  exact one_lt_pow₀ h1 (by omega)

theorem pagoSin_eq (hr : 0 < p.tasa_interes_anual) (hn : 1 ≤ p.plazo_anios) :
    pagoMensualSinSeguros p =
      tasaMensual p * p.credito_total * factorA p / (factorA p - 1) := by
  have hA := one_lt_factorA hr hn
  have hA0 : factorA p ≠ 0 := by linarith
  have hA1 : factorA p - 1 ≠ 0 := by linarith
  unfold pagoMensualSinSeguros
  rw [show (1 - ((1 + tasaMensual p) ^ (p.plazo_anios * 12))⁻¹) =
      1 - (factorA p)⁻¹ from rfl]
  field_simp

theorem deltaMin_pos (hc : 0 < p.credito_total)
    (hr : 0 < p.tasa_interes_anual) (hn : 1 ≤ p.plazo_anios) :
    0 < deltaMin p := by
  have hA := one_lt_factorA hr hn
  exact div_pos (mul_pos (tasaMensual_pos hr) hc) (by linarith)

theorem pagoSin_sub_delta (hc : 0 < p.credito_total)
    (hr : 0 < p.tasa_interes_anual) (hn : 1 ≤ p.plazo_anios) :
    pagoMensualSinSeguros p - p.credito_total * tasaMensual p = deltaMin p := by
  have hA := one_lt_factorA hr hn
  have hA1 : factorA p - 1 ≠ 0 := by linarith
  rw [pagoSin_eq hr hn]
  unfold deltaMin
  field_simp
  ring

theorem abono_lower (hc : 0 < p.credito_total)
    (hr : 0 < p.tasa_interes_anual) (hs : 0 ≤ p.tasa_seguros_anual)
    (hn : 1 ≤ p.plazo_anios) (saldo : ℚ)
    (hsal : saldo ≤ p.credito_total) :
    abonoCapitalDe p (pagoMensualAproximado p) saldo =
      pagoMensualAproximado p - saldo * tasaMensual p -
        saldo * p.tasa_seguros_anual / 12 ∧
    deltaMin p ≤ abonoCapitalDe p (pagoMensualAproximado p) saldo := by
  have hδ := deltaMin_pos hc hr hn
  have hpago : pagoMensualAproximado p = pagoMensualSinSeguros p +
      p.credito_total * p.tasa_seguros_anual / 12 := by
    unfold pagoMensualAproximado costoSegurosInicial
    ring
  have hkey : deltaMin p ≤ pagoMensualAproximado p - saldo * tasaMensual p -
      saldo * p.tasa_seguros_anual / 12 := by
    have h1 : saldo * tasaMensual p ≤ p.credito_total * tasaMensual p :=
      mul_le_mul_of_nonneg_right hsal (le_of_lt (tasaMensual_pos hr))
    have h2 : saldo * p.tasa_seguros_anual / 12 ≤
        p.credito_total * p.tasa_seguros_anual / 12 :=
      (div_le_div_iff_of_pos_right (by norm_num)).mpr
        (mul_le_mul_of_nonneg_right hsal hs)
    have h3 := pagoSin_sub_delta hc hr hn
    rw [hpago]
    linarith
  constructor
  · unfold abonoCapitalDe
    rw [if_neg (not_lt.mpr (by linarith))]
  · unfold abonoCapitalDe
    rw [if_neg (not_lt.mpr (by linarith))]
    exact hkey

theorem annB_zero (hr : 0 < p.tasa_interes_anual) (hn : 1 ≤ p.plazo_anios) :
    annB p 0 = p.credito_total := by
  have hA := one_lt_factorA hr hn
  have hA1 : factorA p - 1 ≠ 0 := by linarith
  unfold annB
  rw [pow_zero]
  field_simp

theorem annB_succ (hr : 0 < p.tasa_interes_anual) (hn : 1 ≤ p.plazo_anios)
    (m : ℕ) :
    annB p (m + 1) =
      (1 + tasaMensual p) * annB p m - pagoMensualSinSeguros p := by
  have hA := one_lt_factorA hr hn
  have hA1 : factorA p - 1 ≠ 0 := by linarith
  unfold annB
  rw [pagoSin_eq hr hn, pow_succ]
  field_simp
  ring

theorem annB_pos_lt (hc : 0 < p.credito_total)
    (hr : 0 < p.tasa_interes_anual) (hn : 1 ≤ p.plazo_anios)
    (m : ℕ) (h : 0 < annB p m) : m < p.plazo_anios * 12 := by
  by_contra hcon
  push_neg at hcon
  have hA := one_lt_factorA hr hn
  have hg : (1 : ℚ) ≤ 1 + tasaMensual p := by linarith [tasaMensual_pos hr]
  have hpow : factorA p ≤ (1 + tasaMensual p) ^ m := by
    unfold factorA
    exact pow_le_pow_right₀ hg hcon
  have hnum : p.credito_total * (factorA p - (1 + tasaMensual p) ^ m) ≤ 0 :=
    mul_nonpos_iff.mpr (Or.inl ⟨le_of_lt hc, by linarith⟩)
  have : annB p m ≤ 0 := div_nonpos_of_nonpos_of_nonneg hnum (by linarith)
  linarith

end C3Machinery

theorem c3_runLoop (p : Params) (hc : 0 < p.credito_total)
    (hr : 0 < p.tasa_interes_anual) (hs : 0 ≤ p.tasa_seguros_anual)
    (hn : 1 ≤ p.plazo_anios) (hext : p.pagos_recurrentes = [])
    (hliq : p.liquidar_al_25 = false) :
    ∀ (fuel : ℕ) (s : AmortState),
      s.saldo_pendiente ≤ p.credito_total →
      s.saldo_pendiente ≤ (fuel : ℚ) * deltaMin p →
      (0 < s.saldo_pendiente → s.saldo_pendiente ≤ annB p s.meses) →
      s.meses ≤ p.plazo_anios * 12 →
      ∃ s', runLoop p (pagoMensualAproximado p) fuel s = some s' ∧
        s'.meses ≤ p.plazo_anios * 12 ∧
        s.amort_data.length ≤ s'.amort_data.length ∧
        (0 < s.saldo_pendiente → s.amort_data.length < s'.amort_data.length) := by
  intro fuel
  induction fuel with
  | zero =>
    intro s h1 h2 h3 h4
    rw [Nat.cast_zero, zero_mul] at h2
    have hnpos : ¬0 < s.saldo_pendiente := not_lt.mpr h2
    refine ⟨s, ?_, h4, le_refl _, fun hpos => absurd hpos hnpos⟩
    unfold runLoop
    rw [if_neg hnpos]
  | succ n ih =>
    intro s h1 h2 h3 h4
    by_cases hpos : 0 < s.saldo_pendiente
    · have hδ := deltaMin_pos hc hr hn
      obtain ⟨hab_eq, hab_ge⟩ := abono_lower hc hr hs hn s.saldo_pendiente h1
      have hsal1 : (loopBody p (pagoMensualAproximado p) s).1.saldo_pendiente =
          clampZero (s.saldo_pendiente -
            abonoCapitalDe p (pagoMensualAproximado p) s.saldo_pendiente - 0) := by
        rw [loopBody_saldo_of_not_liq _ _ _ hliq, hext, extrasTotal_nil]
      rw [sub_zero] at hsal1
      push_cast at h2
      have hexp : ((n : ℚ) + 1) * deltaMin p =
          (n : ℚ) * deltaMin p + deltaMin p := by ring
      have hA : (loopBody p (pagoMensualAproximado p) s).1.saldo_pendiente ≤
          p.credito_total := by
        rw [hsal1]; unfold clampZero; split_ifs with hneg
        · linarith
        · linarith
      have hB : (loopBody p (pagoMensualAproximado p) s).1.saldo_pendiente ≤
          (n : ℚ) * deltaMin p := by
        rw [hsal1]; unfold clampZero; split_ifs with hneg
        · exact mul_nonneg (Nat.cast_nonneg n) (le_of_lt hδ)
        · linarith
      have hmes1 := loopBody_fst_meses p (pagoMensualAproximado p) s
      have hmesN : s.meses + 1 ≤ p.plazo_anios * 12 := by
        have hpos_ann : 0 < annB p s.meses := lt_of_lt_of_le hpos (h3 hpos)
        have := annB_pos_lt hc hr hn s.meses hpos_ann
        omega
      have hC : 0 < (loopBody p (pagoMensualAproximado p) s).1.saldo_pendiente →
          (loopBody p (pagoMensualAproximado p) s).1.saldo_pendiente ≤
            annB p (loopBody p (pagoMensualAproximado p) s).1.meses := by
        intro hp1
        rw [hmes1]
        rw [hsal1] at hp1 ⊢
        have hcl := clampZero_pos hp1
        rw [hcl]
        rw [hab_eq]
        rw [annB_succ hr hn]
        have hpago : pagoMensualAproximado p = pagoMensualSinSeguros p +
            p.credito_total * p.tasa_seguros_anual / 12 := by
          unfold pagoMensualAproximado costoSegurosInicial; ring
        rw [hpago]
        have hsan := h3 hpos
        have key : s.saldo_pendiente * (1 + tasaMensual p) ≤
            annB p s.meses * (1 + tasaMensual p) :=
          mul_le_mul_of_nonneg_right hsan (by linarith [tasaMensual_pos hr])
        have e1 : s.saldo_pendiente * (1 + tasaMensual p) =
            s.saldo_pendiente + s.saldo_pendiente * tasaMensual p := by ring
        have e2 : annB p s.meses * (1 + tasaMensual p) =
            annB p s.meses + annB p s.meses * tasaMensual p := by ring
        have e3 : (1 + tasaMensual p) * annB p s.meses =
            annB p s.meses + annB p s.meses * tasaMensual p := by ring
        have h5 : s.saldo_pendiente * p.tasa_seguros_anual / 12 ≤
            p.credito_total * p.tasa_seguros_anual / 12 :=
          (div_le_div_iff_of_pos_right (by norm_num)).mpr
            (mul_le_mul_of_nonneg_right h1 hs)
        linarith [key, e1, e2, e3, h5]
      have hmesN' : (loopBody p (pagoMensualAproximado p) s).1.meses ≤
          p.plazo_anios * 12 := by rw [hmes1]; exact hmesN
      obtain ⟨s', hrun', hm', hl1, -⟩ :=
        ih (loopBody p (pagoMensualAproximado p) s).1 hA hB hC hmesN'
      have hlen := loopBody_fst_len p (pagoMensualAproximado p) s
      refine ⟨s', ?_, hm', by omega, fun _ => by omega⟩
      unfold runLoop
      dsimp only
      rw [if_pos hpos, loopBody_snd_of_not_liq p _ s hliq,
        if_neg Bool.false_ne_true]
      exact hrun'
    · refine ⟨s, ?_, h4, le_refl _, fun hp => absurd hp hpos⟩
      unfold runLoop
      dsimp only
      rw [if_neg hpos]

/-- **C3** (amended): for positive principal, strictly positive annual
rate, non-negative insurance rate, term of at least one year, no recurring
extras and early payoff disabled, the simulation terminates with a
non-empty schedule, the last record's ending balance is exactly zero, and
the duration is at most `termYears * 12` months. -/
theorem C3_terminacion_saldo_cero (p : Params) (hc : 0 < p.credito_total)
    (hr : 0 < p.tasa_interes_anual) (hs : 0 ≤ p.tasa_seguros_anual)
    (hn : 1 ≤ p.plazo_anios) (hext : p.pagos_recurrentes = [])
    (hliq : p.liquidar_al_25 = false) :
    ∃ (fuel : ℕ) (recs : List MonthRecord) (res : Resumen),
      simulate p fuel = .ok recs res ∧ recs ≠ [] ∧
      (∀ lr, recs.getLast? = some lr → lr.saldoFinal = 0) ∧
      res.duracion_total_meses ≤ p.plazo_anios * 12 := by
  have hδ := deltaMin_pos hc hr hn
  have hA := one_lt_factorA hr hn
  have hdeg : ¬degenerate p := by
    intro h
    rcases h with ⟨h1, -⟩ | h2
    · linarith [tasaMensual_pos hr]
    · have h2' : 1 - (factorA p)⁻¹ = 0 := h2
      have h3 : (factorA p)⁻¹ = 1 := by linarith
      have h4 : factorA p = 1 := inv_eq_one.mp h3
      linarith
  have hfuel : (initState p).saldo_pendiente ≤
      ((⌈p.credito_total / deltaMin p⌉₊ : ℕ) : ℚ) * deltaMin p := by
    show p.credito_total ≤ _
    have h := Nat.le_ceil (p.credito_total / deltaMin p)
    calc p.credito_total = p.credito_total / deltaMin p * deltaMin p := by
          field_simp
    _ ≤ _ := mul_le_mul_of_nonneg_right h (le_of_lt hδ)
  have hann0 : 0 < (initState p).saldo_pendiente →
      (initState p).saldo_pendiente ≤ annB p (initState p).meses := by
    intro _
    show p.credito_total ≤ annB p 0
    rw [annB_zero hr hn]
  obtain ⟨s', hrun, hm, -, hlenpos⟩ :=
    c3_runLoop p hc hr hs hn hext hliq ⌈p.credito_total / deltaMin p⌉₊
      (initState p) (le_refl _) hfuel hann0 (Nat.zero_le _)
  have hInv := runLoop_inv p _ _ _ _ (Inv_initState p _) hrun
  have hsaldo := runLoop_saldo_final p _ _ _ _ hrun
  have hlen : 0 < s'.amort_data.length :=
    hlenpos (show 0 < (initState p).saldo_pendiente from hc)
  have hne : s'.amort_data ≠ [] := by
    intro h; rw [h] at hlen; simp at hlen
  refine ⟨⌈p.credito_total / deltaMin p⌉₊, s'.amort_data.reverse,
    mkResumen p s', ?_, ?_, ?_, hm⟩
  · unfold simulate
    rw [if_neg hdeg, hrun]
  · intro h
    exact hne (List.reverse_eq_nil_iff.mp h)
  · intro lr hlast
    rw [List.getLast?_reverse] at hlast
    obtain ⟨tl, hdata⟩ : ∃ tl, s'.amort_data = lr :: tl := by
      cases hdata : s'.amort_data with
      | nil => rw [hdata] at hlast; cases hlast
      | cons hd tl =>
        rw [hdata] at hlast
        injection hlast with hlast
        exact ⟨tl, by rw [hlast]⟩
    have ha := Inv_aplicada_false hInv hliq
    have hfin : lr.saldoFinal = s'.saldo_pendiente :=
      hInv.head_match ha lr tl hdata
    exact le_antisymm (hfin ▸ hsaldo)
      ((hInv.recs lr (hdata ▸ List.mem_cons_self lr tl)).final_nonneg)

/-! ### Concrete scenarios -/

/-- Early payoff fires in month 1: the 800 extra drives the balance to
about 121.15 ≤ 250 = 25% of the principal. -/
def ejemploLiquidacion : Params :=
  { credito_total := 1000, tasa_interes_anual := 12/100, plazo_anios := 1,
    inicio_credito := ⟨2024, 12, 1⟩, pagos_recurrentes := [(1, 1, 800)],
    liquidar_al_25 := true, tasa_seguros_anual := 0 }

/-- A two-month run: the 2000 extra in month 2 overshoots the balance,
which is clamped to zero. -/
def ejemploCorto : Params :=
  { credito_total := 1000, tasa_interes_anual := 12/100, plazo_anios := 1,
    inicio_credito := ⟨2025, 1, 15⟩, pagos_recurrentes := [(3, 15, 2000)],
    liquidar_al_25 := false, tasa_seguros_anual := 1/100 }

/-- A one-month run where the extra payment overshoots at once. -/
def ejemploClamp : Params :=
  { credito_total := 1000, tasa_interes_anual := 12/100, plazo_anios := 1,
    inicio_credito := ⟨2024, 12, 1⟩, pagos_recurrentes := [(1, 1, 2000)],
    liquidar_al_25 := false, tasa_seguros_anual := 0 }

/-- Ordinary parameters with no extras, for the termination claim. -/
def ejemploSinExtras : Params :=
  { credito_total := 1000, tasa_interes_anual := 12/100, plazo_anios := 1,
    inicio_credito := ⟨2025, 1, 15⟩, pagos_recurrentes := [],
    liquidar_al_25 := false, tasa_seguros_anual := 1/100 }

/-- Zero annual rate: the annuity denominator is zero and Python raises
`ZeroDivisionError`. -/
def ejemploTasaCero : Params :=
  { credito_total := 1000, tasa_interes_anual := 0, plazo_anios := 1,
    inicio_credito := ⟨2025, 1, 15⟩, pagos_recurrentes := [],
    liquidar_al_25 := false, tasa_seguros_anual := 0 }

/-- A very large insurance rate: valid per the claim's preconditions, but
the run lasts 4 months instead of 12. -/
def ejemploSeguroAlto : Params :=
  { credito_total := 1000, tasa_interes_anual := 12/100, plazo_anios := 1,
    inicio_credito := ⟨2025, 1, 15⟩, pagos_recurrentes := [],
    liquidar_al_25 := false, tasa_seguros_anual := 12 }

/-- A recurring extra on day 10 while the loan starts on day 15. -/
def ejemploDia : Params :=
  { credito_total := 1000, tasa_interes_anual := 12/100, plazo_anios := 1,
    inicio_credito := ⟨2025, 1, 15⟩, pagos_recurrentes := [(6, 10, 500)],
    liquidar_al_25 := false, tasa_seguros_anual := 0 }

/-- Non-positive principal with a non-degenerate rate. -/
def ejemploCreditoNegativo : Params :=
  { credito_total := -5, tasa_interes_anual := 12/100, plazo_anios := 1,
    inicio_credito := ⟨2025, 1, 15⟩, pagos_recurrentes := [],
    liquidar_al_25 := false, tasa_seguros_anual := 1/100 }

/-- Non-positive principal combined with a zero rate. -/
def ejemploCreditoNegativoTasaCero : Params :=
  { credito_total := -5, tasa_interes_anual := 0, plazo_anios := 1,
    inicio_credito := ⟨2025, 1, 15⟩, pagos_recurrentes := [],
    liquidar_al_25 := false, tasa_seguros_anual := 0 }

def recordDefault : MonthRecord :=
  ⟨0, ⟨0, 0, 0⟩, 0, 0, 0, 0, 0, 0, 0, false⟩

def liquidacionRecs : List MonthRecord := (simulate ejemploLiquidacion 3).records

def liquidacionRes : Resumen := (simulate ejemploLiquidacion 3).resumen

def liquidacionRec : MonthRecord := liquidacionRecs.headD recordDefault

def cortoRecs : List MonthRecord := (simulate ejemploCorto 4).records

def cortoRes : Resumen := (simulate ejemploCorto 4).resumen

def cortoLast : MonthRecord := cortoRecs.getLast?.getD recordDefault

theorem liquidacion_ok :
    simulate ejemploLiquidacion 3 = .ok liquidacionRecs liquidacionRes := by
  norm_num [liquidacionRecs, liquidacionRes, SimOutcome.records,
    SimOutcome.resumen, simulate, degenerate, runLoop, loopBody, initState,
    mkResumen, pagoMensualAproximado, pagoMensualSinSeguros,
    costoSegurosInicial, tasaMensual, abonoCapitalDe, extrasTotal, clampZero,
    addMonth, daysInMonth, isLeap, round2, roundHalfToEven,
    ejemploLiquidacion, List.filter_cons, beq_iff_eq]

theorem corto_ok :
    simulate ejemploCorto 4 = .ok cortoRecs cortoRes := by
  norm_num [cortoRecs, cortoRes, SimOutcome.records,
    SimOutcome.resumen, simulate, degenerate, runLoop, loopBody, initState,
    mkResumen, pagoMensualAproximado, pagoMensualSinSeguros,
    costoSegurosInicial, tasaMensual, abonoCapitalDe, extrasTotal, clampZero,
    addMonth, daysInMonth, isLeap, round2, roundHalfToEven,
    ejemploCorto, List.filter_cons, beq_iff_eq]

set_option maxHeartbeats 1000000 in
/-- **C3** counterexample: with annual rate 0 (allowed by the claim) the
annuity denominator is zero and the engine fails instead of terminating
with a schedule; and with a large insurance rate (also allowed) the run
completes in 4 months, nowhere near `termYears * 12 = 12`. -/
theorem C3_contraejemplo :
    simulate ejemploTasaCero 24 = .divisionByZero ∧
    (simulate ejemploSeguroAlto 20).resumen.duracion_total_meses = 4 ∧
    (simulate ejemploSeguroAlto 20).records.length = 4 := by
  refine ⟨?_, ?_, ?_⟩
  · norm_num [simulate, degenerate, tasaMensual, ejemploTasaCero]
  · norm_num [simulate, degenerate, runLoop, loopBody, initState, mkResumen,
      pagoMensualAproximado, pagoMensualSinSeguros, costoSegurosInicial,
      tasaMensual, abonoCapitalDe, extrasTotal, clampZero, addMonth,
      daysInMonth, isLeap, round2, roundHalfToEven, SimOutcome.resumen,
      ejemploSeguroAlto, List.filter_cons, beq_iff_eq]
  · norm_num [simulate, degenerate, runLoop, loopBody, initState, mkResumen,
      pagoMensualAproximado, pagoMensualSinSeguros, costoSegurosInicial,
      tasaMensual, abonoCapitalDe, extrasTotal, clampZero, addMonth,
      daysInMonth, isLeap, round2, roundHalfToEven, SimOutcome.records,
      ejemploSeguroAlto, List.filter_cons, beq_iff_eq]

set_option maxHeartbeats 1000000 in
/-- **C4** counterexample: in `ejemploClamp` the final balance is recorded
as 0, yet the principal portions plus extras exceed the original principal
by more than 1000 — far beyond rounding tolerance — because the clamp
discards the overshoot. -/
theorem C4_contraejemplo :
    ejemploClamp.credito_total + 1000 ≤
      sumAbonoExtra (simulate ejemploClamp 3).records +
        payoffTotal (simulate ejemploClamp 3).records ∧
    ((simulate ejemploClamp 3).records.map fun r => r.saldoFinal) = [0] := by
  constructor
  · norm_num [sumAbonoExtra, payoffTotal, simulate, degenerate, runLoop,
      loopBody, initState, mkResumen, pagoMensualAproximado,
      pagoMensualSinSeguros, costoSegurosInicial, tasaMensual, abonoCapitalDe,
      extrasTotal, clampZero, addMonth, daysInMonth, isLeap, round2,
      roundHalfToEven, SimOutcome.records, ejemploClamp, List.filter_cons,
      beq_iff_eq]
  · norm_num [simulate, degenerate, runLoop, loopBody, initState, mkResumen,
      pagoMensualAproximado, pagoMensualSinSeguros, costoSegurosInicial,
      tasaMensual, abonoCapitalDe, extrasTotal, clampZero, addMonth,
      daysInMonth, isLeap, round2, roundHalfToEven, SimOutcome.records,
      ejemploClamp, List.filter_cons, beq_iff_eq]

set_option maxHeartbeats 1000000 in
/-- **C6** counterexample: the summary's monthly-payment figure differs
from the exact scheduled payment — the engine rounds inside the returned
summary, not only at presentation time. -/
theorem C6_contraejemplo :
    (simulate ejemploClamp 3).resumen.pago_mensual ≠
      pagoMensualAproximado ejemploClamp ∧
    (simulate ejemploClamp 3).records.length = 1 := by
  constructor
  · norm_num [simulate, degenerate, runLoop, loopBody, initState, mkResumen,
      pagoMensualAproximado, pagoMensualSinSeguros, costoSegurosInicial,
      tasaMensual, abonoCapitalDe, extrasTotal, clampZero, addMonth,
      daysInMonth, isLeap, round2, roundHalfToEven, SimOutcome.resumen,
      ejemploClamp, List.filter_cons, beq_iff_eq]
  · norm_num [simulate, degenerate, runLoop, loopBody, initState, mkResumen,
      pagoMensualAproximado, pagoMensualSinSeguros, costoSegurosInicial,
      tasaMensual, abonoCapitalDe, extrasTotal, clampZero, addMonth,
      daysInMonth, isLeap, round2, roundHalfToEven, SimOutcome.records,
      ejemploClamp, List.filter_cons, beq_iff_eq]

/-- **C10** counterexample: a non-positive principal combined with a zero
annual rate still hits the zero annuity denominator, so the engine raises
(`divisionByZero`) instead of returning the empty schedule. -/
theorem C10_contraejemplo :
    ejemploCreditoNegativoTasaCero.credito_total ≤ 0 ∧
    simulate ejemploCreditoNegativoTasaCero 24 = .divisionByZero := by
  constructor
  · norm_num [ejemploCreditoNegativoTasaCero]
  · norm_num [simulate, degenerate, tasaMensual, ejemploCreditoNegativoTasaCero]

set_option maxHeartbeats 1000000 in
theorem corto_last : cortoRecs.getLast? = some cortoLast := by
  norm_num [cortoLast, cortoRecs, SimOutcome.records, simulate, degenerate,
    runLoop, loopBody, initState, mkResumen, pagoMensualAproximado,
    pagoMensualSinSeguros, costoSegurosInicial, tasaMensual, abonoCapitalDe,
    extrasTotal, clampZero, addMonth, daysInMonth, isLeap, round2,
    roundHalfToEven, ejemploCorto, List.filter_cons, beq_iff_eq,
    List.getLast?, Option.getD]

set_option maxHeartbeats 1000000 in
theorem liquidacion_mem : liquidacionRec ∈ liquidacionRecs := by
  norm_num [liquidacionRec, liquidacionRecs, SimOutcome.records, simulate,
    degenerate, runLoop, loopBody, initState, mkResumen,
    pagoMensualAproximado, pagoMensualSinSeguros, costoSegurosInicial,
    tasaMensual, abonoCapitalDe, extrasTotal, clampZero, addMonth,
    daysInMonth, isLeap, round2, roundHalfToEven, ejemploLiquidacion,
    List.filter_cons, beq_iff_eq, List.headD]

set_option maxHeartbeats 1000000 in
theorem liquidacion_flag : liquidacionRec.liqAplicada = true := by
  norm_num [liquidacionRec, liquidacionRecs, SimOutcome.records, simulate,
    degenerate, runLoop, loopBody, initState, mkResumen,
    pagoMensualAproximado, pagoMensualSinSeguros, costoSegurosInicial,
    tasaMensual, abonoCapitalDe, extrasTotal, clampZero, addMonth,
    daysInMonth, isLeap, round2, roundHalfToEven, ejemploLiquidacion,
    List.filter_cons, beq_iff_eq, List.headD]

theorem C1_liquidacion_anticipada_witness :
    (ejemploLiquidacion.liquidar_al_25 = true ∧
      simulate ejemploLiquidacion 3 = .ok liquidacionRecs liquidacionRes) ∧
    ((liquidacionRecs.filter fun r => r.liqAplicada).length ≤ 1 ∧
      ((∃ r ∈ liquidacionRecs, r.liqAplicada = true) ↔
        liquidacionRes.fecha_liquidacion.isSome = true) ∧
      (∀ r ∈ liquidacionRecs, r.liqAplicada = true →
        liquidacionRecs.getLast? = some r ∧
        liquidacionRes.duracion_total_meses = r.mes ∧
        0 < r.saldoInicial - r.abonoCapital - r.pagoExtra ∧
        r.saldoInicial - r.abonoCapital - r.pagoExtra ≤
          ejemploLiquidacion.credito_total * 0.25 ∧
        r.saldoFinal = (r.saldoInicial - r.abonoCapital - r.pagoExtra) / 2) ∧
      (∀ r ∈ liquidacionRecs, r.liqAplicada = false →
        ¬(r.saldoInicial - r.abonoCapital - r.pagoExtra ≤
            ejemploLiquidacion.credito_total * 0.25 ∧
          0 < r.saldoInicial - r.abonoCapital - r.pagoExtra))) :=
  ⟨⟨rfl, liquidacion_ok⟩,
    C1_liquidacion_anticipada ejemploLiquidacion 3 liquidacionRecs
      liquidacionRes rfl liquidacion_ok⟩

theorem C2_pago_mensual_fijo_witness :
    simulate ejemploCorto 4 = .ok cortoRecs cortoRes ∧
    ∀ r ∈ cortoRecs,
      r.pagoMensual =
        (ejemploCorto.tasa_interes_anual / 12 * ejemploCorto.credito_total) /
          (1 - ((1 + ejemploCorto.tasa_interes_anual / 12) ^
            (ejemploCorto.plazo_anios * 12))⁻¹) +
          (ejemploCorto.credito_total * ejemploCorto.tasa_seguros_anual) / 12 ∧
      r.seguro = r.saldoInicial * ejemploCorto.tasa_seguros_anual / 12 :=
  ⟨corto_ok, C2_pago_mensual_fijo ejemploCorto 4 cortoRecs cortoRes corto_ok⟩

theorem C3_terminacion_saldo_cero_witness :
    (0 < ejemploSinExtras.credito_total ∧
      0 < ejemploSinExtras.tasa_interes_anual ∧
      0 ≤ ejemploSinExtras.tasa_seguros_anual ∧
      1 ≤ ejemploSinExtras.plazo_anios ∧
      ejemploSinExtras.pagos_recurrentes = [] ∧
      ejemploSinExtras.liquidar_al_25 = false) ∧
    (∃ (fuel : ℕ) (recs : List MonthRecord) (res : Resumen),
      simulate ejemploSinExtras fuel = .ok recs res ∧ recs ≠ [] ∧
      (∀ lr, recs.getLast? = some lr → lr.saldoFinal = 0) ∧
      res.duracion_total_meses ≤ ejemploSinExtras.plazo_anios * 12) :=
  ⟨⟨by norm_num [ejemploSinExtras], by norm_num [ejemploSinExtras],
    by norm_num [ejemploSinExtras], by norm_num [ejemploSinExtras], rfl, rfl⟩,
    C3_terminacion_saldo_cero ejemploSinExtras
      (by norm_num [ejemploSinExtras]) (by norm_num [ejemploSinExtras])
      (by norm_num [ejemploSinExtras]) (by norm_num [ejemploSinExtras])
      rfl rfl⟩

theorem C4_conservacion_witness :
    (simulate ejemploCorto 4 = .ok cortoRecs cortoRes ∧
      cortoRecs.getLast? = some cortoLast) ∧
    (sumAbonoExtra cortoRecs + payoffTotal cortoRecs +
      (cortoLast.saldoInicial - cortoLast.abonoCapital - cortoLast.pagoExtra -
        payoffTotal cortoRecs) = ejemploCorto.credito_total ∧
    (cortoLast.liqAplicada = false →
      0 ≤ cortoLast.saldoInicial - cortoLast.abonoCapital -
        cortoLast.pagoExtra →
      sumAbonoExtra cortoRecs = ejemploCorto.credito_total) ∧
    (cortoLast.liqAplicada = true →
      sumAbonoExtra cortoRecs + payoffTotal cortoRecs =
        ejemploCorto.credito_total - cortoLast.saldoFinal)) :=
  ⟨⟨corto_ok, corto_last⟩,
    C4_conservacion ejemploCorto 4 cortoRecs cortoRes corto_ok cortoLast
      corto_last⟩

theorem C5_contiguidad_witness :
    simulate ejemploCorto 4 = .ok cortoRecs cortoRes ∧
    (List.Chain' (fun a b => a.saldoFinal = b.saldoInicial) cortoRecs ∧
      ∀ r ∈ cortoRecs, 0 ≤ r.saldoFinal ∧
        (r.liqAplicada = false →
          r.saldoFinal =
            clampZero (r.saldoInicial - r.abonoCapital - r.pagoExtra))) :=
  ⟨corto_ok, C5_contiguidad ejemploCorto 4 cortoRecs cortoRes corto_ok⟩

theorem C6_redondeo_resumen_witness :
    simulate ejemploCorto 4 = .ok cortoRecs cortoRes ∧
    (cortoRes.pago_mensual = round2 (pagoMensualAproximado ejemploCorto) ∧
      cortoRes.total_intereses_pagados =
        round2 ((cortoRecs.map fun r => r.interes).sum) ∧
      cortoRes.saldo_liquidacion = round2 (payoffTotal cortoRecs) ∧
      cortoRes.total_pagado = round2 ((cortoRecs.map fun r => r.pagoMensual).sum +
        (cortoRecs.map fun r => r.pagoExtra).sum + payoffTotal cortoRecs)) :=
  ⟨corto_ok, C6_redondeo_resumen ejemploCorto 4 cortoRecs cortoRes corto_ok⟩

theorem C8_saldo_final_liquidacion_witness :
    (simulate ejemploLiquidacion 3 = .ok liquidacionRecs liquidacionRes ∧
      liquidacionRec ∈ liquidacionRecs ∧
      liquidacionRec.liqAplicada = true) ∧
    (liquidacionRecs.getLast? = some liquidacionRec ∧
      liquidacionRec.saldoFinal = (liquidacionRec.saldoInicial -
        liquidacionRec.abonoCapital - liquidacionRec.pagoExtra) / 2 ∧
      0 < liquidacionRec.saldoFinal) :=
  ⟨⟨liquidacion_ok, liquidacion_mem, liquidacion_flag⟩,
    C8_saldo_final_liquidacion ejemploLiquidacion 3 liquidacionRecs
      liquidacionRes liquidacion_ok liquidacionRec liquidacion_mem
      liquidacion_flag⟩

theorem C9_dia_no_coincidente_witness :
    (ejemploDia.pagos_recurrentes = [] ++ (6, 10, (500 : ℚ)) :: [] ∧
      ejemploDia.inicio_credito.day ≤ 28 ∧
      ((6, 10, (500 : ℚ)) : ℕ × ℕ × ℚ).2.1 ≠ ejemploDia.inicio_credito.day) ∧
    ((∀ recs res, simulate ejemploDia 14 = .ok recs res →
      ∀ r ∈ recs, r.fecha.day = ejemploDia.inicio_credito.day) ∧
    simulate ejemploDia 14 =
      simulate { ejemploDia with pagos_recurrentes := [] ++ [] } 14) :=
  ⟨⟨rfl, by norm_num [ejemploDia], by norm_num [ejemploDia]⟩,
    C9_dia_no_coincidente ejemploDia 14 [] [] (6, 10, (500 : ℚ)) rfl
      (by norm_num [ejemploDia]) (by norm_num [ejemploDia])⟩

theorem C10_credito_no_positivo_witness :
    (ejemploCreditoNegativo.credito_total ≤ 0 ∧
      ¬degenerate ejemploCreditoNegativo) ∧
    simulate ejemploCreditoNegativo 5 = .ok []
      { duracion_total_meses := 0, fecha_liquidacion := none,
        pago_mensual := round2 (pagoMensualAproximado ejemploCreditoNegativo),
        credito_total := ejemploCreditoNegativo.credito_total,
        tasa_interes_anual := ejemploCreditoNegativo.tasa_interes_anual,
        saldo_liquidacion := 0, total_intereses_pagados := 0,
        total_pagado := 0 } :=
  ⟨⟨by norm_num [ejemploCreditoNegativo],
    by norm_num [degenerate, tasaMensual, ejemploCreditoNegativo]⟩,
    C10_credito_no_positivo ejemploCreditoNegativo 5
      (by norm_num [ejemploCreditoNegativo])
      (by norm_num [degenerate, tasaMensual, ejemploCreditoNegativo])⟩
